import Mathlib

/-!
Shallow embedding of `scripts/build_and_publish.py` (RAGPack build and
publish pipeline) and proofs about it.

The script is a linear release pipeline:
clean -> version check -> [quality checks -> tests] -> build -> package
check -> publish, with interactive "continue anyway?" prompts on
non-critical failures and a confirmation prompt before a production
upload.  We model:

  * `run_command`      — the shared subprocess wrapper (returns a Bool);
  * `clean_build_artifacts` — removal of build/, dist/ and *.egg-info;
  * `check_version_consistency` — the version check; the Python function
    is dynamically typed, so its result is modelled as a `PyVal`
    (a Python value: either a bool or a string) to settle the question
    of what it returns;
  * `mainRun`          — the `main()` driver, as a function from the
    parsed CLI arguments and an environment (file contents, exit codes
    of external commands, operator input lines) to the trace of
    observable events (external commands run, prompts shown) and the
    process exit code.
-/

/-- A Python runtime value, as far as this script produces them: the
version-check helper returns booleans, while the spec speaks of it
returning a version string.  Modelling the dynamic type lets us state
which one the code actually returns. -/
inductive PyVal where
  | bool (b : Bool)
  | str (s : String)
deriving DecidableEq, Repr

/-- Python truthiness for the values above: `if not f(): ...` in `main`
tests truthiness, not equality to `True`. -/
def truthy : PyVal → Bool
  | PyVal.bool b => b
  | PyVal.str s => s != ""

/-! ## The regular-expression searches

`check_version_consistency` uses `re.search(r'version = "([^"]+)"', ...)`
and `re.search(r'__version__ = "([^"]+)"', ...)`.  Both patterns are a
literal marker ending in a double quote, then a nonempty capture of
non-quote characters, then a closing double quote.  `re.search` tries
each start position from the left; at a fixed start the match succeeds
iff the marker is a prefix there, the following run of non-quote
characters is nonempty, and it is followed by a quote (the capture class
excludes the quote, so no other backtracking split can close the match).
-/

/-- Strip `marker` from the front of `s`; `none` when it is not a prefix. -/
def stripMarker : List Char → List Char → Option (List Char)
  | [], s => some s
  | _ :: _, [] => none
  | m :: ms, c :: cs => if m = c then stripMarker ms cs else none

/-- Try to match `marker ++ [^"]+ ++ '"'` at the very start of `s`,
returning the capture group. -/
def tryMatchAt (marker s : List Char) : Option (List Char) :=
  match stripMarker marker s with
  | none => none
  | some rest =>
    let cap := rest.takeWhile (fun c => c ≠ '"')
    let tail := rest.dropWhile (fun c => c ≠ '"')
    if cap = [] then none
    else
      match tail with
      | '"' :: _ => some cap
      | _ => none

/-- `re.search` for the pattern `marker ++ ([^"]+) ++ '"'`: try every
start position left to right and return the first capture. -/
def reSearch (marker : List Char) : List Char → Option (List Char)
  | [] => tryMatchAt marker []
  | c :: cs =>
    match tryMatchAt marker (c :: cs) with
    | some cap => some cap
    | none => reSearch marker cs

/-- String-level wrapper for `reSearch`. -/
def reSearchStr (marker s : String) : Option String :=
  (reSearch marker.toList s.toList).map (fun l => String.mk l)

/-! ## check_version_consistency -/

/-- The two files the version check reads.  `none` models a missing file
(`Path.exists()` returning false); `some c` models a file with text `c`. -/
structure VersionFiles where
  pyproject : Option String
  initFile : Option String

/-- `check_version_consistency` from the script, step for step:
missing `pyproject.toml` → `False`; no `version = "..."` in it → `False`;
missing `ragpack/__init__.py` → `False`; no `__version__ = "..."` in it →
`False`; differing versions → `False`; otherwise `True`.  The returned
Python value is always a boolean. -/
def check_version_consistency (files : VersionFiles) : PyVal :=
  match files.pyproject with
  | none => PyVal.bool false
  | some pyproject_content =>
    match reSearchStr "version = \"" pyproject_content with
    | none => PyVal.bool false
    | some pyproject_version =>
      match files.initFile with
      | none => PyVal.bool false
      | some init_content =>
        match reSearchStr "__version__ = \"" init_content with
        | none => PyVal.bool false
        | some init_version =>
          if pyproject_version ≠ init_version then PyVal.bool false
          else PyVal.bool true

/-- The version the check extracts from `pyproject.toml` (`none` when the
file or the pattern is missing). -/
def pyproject_version_of (files : VersionFiles) : Option String :=
  files.pyproject.bind (fun c => reSearchStr "version = \"" c)

/-- The version the check extracts from `ragpack/__init__.py`. -/
def init_version_of (files : VersionFiles) : Option String :=
  files.initFile.bind (fun c => reSearchStr "__version__ = \"" c)

/-! ## run_command

`run_command(command, description, check=True)` runs the command with
`subprocess.run(..., shell=True, check=check, capture_output=True)`.
With `check=True` a non-zero exit raises `CalledProcessError`, which the
`except` branch turns into `False`; otherwise the function returns
`result.returncode == 0`.  stdout/stderr are only printed.  We model a
finished external command by its exit code and captured streams. -/

/-- The observable outcome of one external command: exit code and the
captured output streams. -/
structure CmdResult where
  returncode : Int
  stdout : String
  stderr : String

/-- `run_command` from the script: with `check = true` a non-zero exit
raises `CalledProcessError` and the handler returns `false`; otherwise
the function returns `returncode == 0`.  The captured streams are only
echoed to the operator. -/
def run_command (check : Bool) (result : CmdResult) : Bool :=
  if check = true ∧ result.returncode ≠ 0 then
    false
  else
    decide (result.returncode = 0)

/-! ## clean_build_artifacts

The script iterates the patterns `["build", "dist", "*.egg-info"]`.  For
`build` and `dist` it removes the path if it exists, directory or not
(`rmtree` or `unlink`).  For `*.egg-info` it globs the current directory
and removes only the entries that are directories.  We model the current
directory as a partial map from entry names to entry kinds. -/

/-- Kind of a directory entry. -/
inductive EntryKind where
  | file
  | dir
deriving DecidableEq, Repr

/-- The current directory: each name maps to the kind of the entry with
that name, or to `none` when no such entry exists. -/
def Fs : Type := String → Option EntryKind

/-- Removing a fixed path name, as the `else` branch of the loop does:
if it exists it is removed whether file or directory. -/
def removePath (p : String) (fs : Fs) : Fs :=
  match fs p with
  | none => fs
  | some _ => fun n => if n = p then none else fs n

/-- Removing every directory whose name matches the glob `*.egg-info`
(pathlib's `*` also matches names starting with a dot, so the glob is
exactly a suffix test); entries that are not directories are skipped by
the `path.is_dir()` test. -/
def removeEggInfoDirs (fs : Fs) : Fs := fun n =>
  if fs n = some EntryKind.dir ∧ n.endsWith ".egg-info" = true then none
  else fs n

/-- `clean_build_artifacts` from the script: the loop handles `build`,
then `dist`, then the `*.egg-info` glob. -/
def clean_build_artifacts (fs : Fs) : Fs :=
  removeEggInfoDirs (removePath "dist" (removePath "build" fs))

/-! ## The main driver -/

/-- The `--target` choices. -/
inductive Target where
  | build
  | testPypi
  | pypi
deriving DecidableEq, Repr

/-- Python's `str.lower()` as the script uses it: each prompt response
is compared against the single ASCII letter `"y"` after lowering, so the
character-wise ASCII lowering is an exact model of that comparison. -/
def pyLower (s : String) : String := String.mk (s.toList.map Char.toLower)

/-- The parsed CLI arguments. -/
structure Args where
  target : Target
  skip_checks : Bool
  skip_clean : Bool

/-- The exact command strings the script runs. -/
def black_cmd : String := "black --check ragpack tests examples scripts"

def flake8_cmd : String := "flake8 ragpack tests examples scripts"

def mypy_cmd : String := "mypy ragpack --ignore-missing-imports"

def pytest_cmd : String := "pytest tests/ -v --tb=short"

def build_cmd : String := "python -m build"

def twine_check_cmd : String := "twine check dist/*"

def twine_upload_test_cmd : String := "twine upload --repository testpypi dist/*"

def twine_upload_cmd : String := "twine upload dist/*"

/-- The text of the non-critical-failure prompt. -/
def continue_prompt : String := "Continue anyway? (y/N): "

/-- The text of the production-upload confirmation prompt. -/
def pypi_prompt : String := "Are you sure you want to continue? (y/N): "

/-- The environment one run of `main` interacts with: the two version
files, the outcome each external command would have, and the operator's
successive `input()` lines. -/
structure Env where
  files : VersionFiles
  cmdRes : String → CmdResult
  stdin : Nat → String

/-- An observable event of a run: one external command invocation, one
interactive prompt (with its text), or the artifact cleanup. -/
inductive Event where
  | clean
  | runCmd (command : String)
  | prompt (text : String)
deriving DecidableEq, Repr

/-- `run_quality_checks` from the script: runs all three check commands
(`check=False`), clearing `all_passed` on each failure, and returns the
aggregate. -/
def quality_check_cmds : List String := [black_cmd, flake8_cmd, mypy_cmd]

def run_quality_checks (env : Env) : Bool :=
  quality_check_cmds.foldl
    (fun all_passed c => all_passed && run_command false (env.cmdRes c)) true

/-- `run_tests` from the script. -/
def run_tests (env : Env) : Bool := run_command true (env.cmdRes pytest_cmd)

/-- `build_package` from the script. -/
def build_package (env : Env) : Bool := run_command true (env.cmdRes build_cmd)

/-- `check_package` from the script. -/
def check_package (env : Env) : Bool := run_command true (env.cmdRes twine_check_cmd)

/-- `upload_to_test_pypi` from the script. -/
def upload_to_test_pypi (env : Env) : Bool :=
  run_command true (env.cmdRes twine_upload_test_cmd)

/-- `upload_to_pypi` from the script. -/
def upload_to_pypi (env : Env) : Bool :=
  run_command true (env.cmdRes twine_upload_cmd)

/-- Step 4 of `main` (run tests; on failure ask `Continue anyway?` and
`sys.exit(1)` unless the answer lowercases to `y`).  Returns the events
of this block, the number of `input()` lines consumed so far (`prompts`
on entry), and whether the run continues. -/
def tests_block (env : Env) (prompts : Nat) : List Event × Nat × Bool :=
  let evT : List Event := [Event.runCmd pytest_cmd]
  if run_tests env then (evT, prompts, true)
  else
    let evT2 := evT ++ [Event.prompt continue_prompt]
    if pyLower (env.stdin prompts) ≠ "y" then (evT2, prompts + 1, false)
    else (evT2, prompts + 1, true)

/-- Steps 3 and 4 of `main`: skipped entirely under `--skip-checks`;
otherwise quality checks (all three commands always run), a
`Continue anyway?` prompt when they fail, then the test block.  Returns
the events, the number of `input()` lines consumed, and whether the run
continues (false = `sys.exit(1)`). -/
def checks_and_tests (args : Args) (env : Env) : List Event × Nat × Bool :=
  if args.skip_checks then ([], 0, true)
  else
    let evQ := quality_check_cmds.map Event.runCmd
    if run_quality_checks env then
      let r := tests_block env 0
      (evQ ++ r.1, r.2)
    else
      let evQ2 := evQ ++ [Event.prompt continue_prompt]
      if pyLower (env.stdin 0) ≠ "y" then (evQ2, 1, false)
      else
        let r := tests_block env 1
        (evQ2 ++ r.1, r.2)

/-- Steps 5 to 7 of `main`: build (fatal on failure), package check
(fatal on failure), then the upload chosen by `--target` — test index
directly, production index after the confirmation prompt (exit 1 when
the answer does not lower to `y`), or no upload for `build`.  `prompts`
is the number of `input()` lines consumed before this point.  Returns
the events of these steps and the exit code. -/
def build_check_publish (args : Args) (env : Env) (prompts : Nat) : List Event × Nat :=
  if build_package env = false then ([Event.runCmd build_cmd], 1)
  else
    let ev2 := [Event.runCmd build_cmd, Event.runCmd twine_check_cmd]
    if check_package env = false then (ev2, 1)
    else
      match args.target with
      | Target.testPypi =>
        let ev3 := ev2 ++ [Event.runCmd twine_upload_test_cmd]
        if upload_to_test_pypi env = false then (ev3, 1) else (ev3, 0)
      | Target.pypi =>
        let ev3 := ev2 ++ [Event.prompt pypi_prompt]
        if pyLower (env.stdin prompts) ≠ "y" then (ev3, 1)
        else
          let ev4 := ev3 ++ [Event.runCmd twine_upload_cmd]
          if upload_to_pypi env = false then (ev4, 1) else (ev4, 0)
      | Target.build => (ev2, 0)

/-- `main` from the script, as a function from arguments and environment
to the trace of events and the process exit code (0 when `main` returns,
1 for every `sys.exit(1)`).  The steps appear in the script's order:
clean (unless `--skip-clean`), version check (fatal), quality checks and
tests (prompts on failure), then the build/check/publish tail. -/
def mainRun (args : Args) (env : Env) : List Event × Nat :=
  let ev0 : List Event := if args.skip_clean then [] else [Event.clean]
  if truthy (check_version_consistency env.files) = false then (ev0, 1)
  else
    let c := checks_and_tests args env
    if c.2.2 = false then (ev0 ++ c.1, 1)
    else
      let b := build_check_publish args env c.2.1
      (ev0 ++ c.1 ++ b.1, b.2)

/-! ## Helper lemmas -/

/-- Pointwise behaviour of `removePath`: the named entry is gone, every
other name is untouched. -/
lemma removePath_apply (p : String) (fs : Fs) (n : String) :
    removePath p fs n = if n = p then none else fs n := by
  unfold removePath
  cases h : fs p with
  | none =>
    split
    · next heq => subst heq; exact h
    · rfl
  | some k => rfl

/-- Pointwise characterisation of `clean_build_artifacts`: `build` and
`dist` are removed whatever their kind, a `*.egg-info` entry is removed
only when it is a directory, and every other entry is untouched. -/
lemma clean_apply (fs : Fs) (n : String) :
    clean_build_artifacts fs n =
      if n = "build" ∨ n = "dist" ∨
          (fs n = some EntryKind.dir ∧ n.endsWith ".egg-info" = true)
      then none else fs n := by
  unfold clean_build_artifacts removeEggInfoDirs
  rw [removePath_apply, removePath_apply]
  by_cases hb : n = "build"
  · subst hb; simp
  · by_cases hd : n = "dist"
    · subst hd; simp
    · by_cases he : fs n = some EntryKind.dir ∧ n.endsWith ".egg-info" = true
      · simp [hb, hd, he]
      · simp [hb, hd, he]

/-- `check_version_consistency` succeeds (with the boolean `True`)
exactly when both extractions succeed and agree; in every other case it
returns the boolean `False`. -/
lemma check_version_eq (files : VersionFiles) :
    check_version_consistency files =
      PyVal.bool (decide (pyproject_version_of files ≠ none ∧
        pyproject_version_of files = init_version_of files)) := by
  unfold check_version_consistency pyproject_version_of init_version_of
  cases files.pyproject with
  | none => simp
  | some pc =>
    cases hpv : reSearchStr "version = \"" pc with
    | none => simp [hpv]
    | some pv =>
      cases files.initFile with
      | none => simp [hpv]
      | some ic =>
        cases hiv : reSearchStr "__version__ = \"" ic with
        | none => simp [hpv, hiv]
        | some iv => by_cases h : pv = iv <;> simp [hpv, hiv, h]

/-- Every event the checks-and-tests block can emit is one of the three
quality-check commands, the continue prompt, or the test command. -/
lemma checks_events_cases (args : Args) (env : Env) :
    ∀ e ∈ (checks_and_tests args env).1,
      e = Event.runCmd black_cmd ∨ e = Event.runCmd flake8_cmd ∨
      e = Event.runCmd mypy_cmd ∨ e = Event.prompt continue_prompt ∨
      e = Event.runCmd pytest_cmd := by
  intro e he
  unfold checks_and_tests tests_block at he
  by_cases h1 : args.skip_checks = true <;>
    by_cases h2 : run_quality_checks env = true <;>
    by_cases h3 : run_tests env = true <;>
    by_cases h4 : pyLower (env.stdin 0) = "y" <;>
    by_cases h5 : pyLower (env.stdin 1) = "y" <;>
    simp [h1, h2, h3, h4, h5, quality_check_cmds] at he <;>
    tauto

/-! ## Concrete fixtures -/

/-- Version files in which both sources carry version `1.2.0`. -/
def goodFiles : VersionFiles :=
  { pyproject := some "version = \"1.2.0\"\n"
    initFile := some "__version__ = \"1.2.0\"\n" }

/-- Version files with the spec's mismatch: `1.2.0` against `1.1.9`. -/
def mismatchFiles : VersionFiles :=
  { pyproject := some "version = \"1.2.0\"\n"
    initFile := some "__version__ = \"1.1.9\"\n" }

/-- A successful external command. -/
def okResult : CmdResult := { returncode := 0, stdout := "", stderr := "" }

/-- A failed external command. -/
def failResult : CmdResult := { returncode := 1, stdout := "", stderr := "" }

/-- The default CLI invocation: `--target build`, checks and clean on. -/
def argsDefault : Args := { target := Target.build, skip_checks := false, skip_clean := false }

/-- `--target pypi --skip-checks`. -/
def argsPypiSkip : Args := { target := Target.pypi, skip_checks := true, skip_clean := false }

/-- `--target pypi` with checks on. -/
def argsPypiFull : Args := { target := Target.pypi, skip_checks := false, skip_clean := false }

/-- `--target build --skip-checks`. -/
def argsSkip : Args := { target := Target.build, skip_checks := true, skip_clean := false }

/-- Everything succeeds; the operator always answers `r`. -/
def envAllOk (r : String) : Env :=
  { files := goodFiles, cmdRes := fun _ => okResult, stdin := fun _ => r }

/-- The versions mismatch; external commands would all succeed. -/
def envMismatch : Env :=
  { files := mismatchFiles, cmdRes := fun _ => okResult, stdin := fun _ => "" }

/-- The formatting check fails, everything else succeeds; the operator
always answers `r`. -/
def envQualityFail (r : String) : Env :=
  { files := goodFiles
    cmdRes := fun c => if c = black_cmd then failResult else okResult
    stdin := fun _ => r }

/-- The test suite fails, everything else succeeds; the operator always
answers `r`. -/
def envTestFail (r : String) : Env :=
  { files := goodFiles
    cmdRes := fun c => if c = pytest_cmd then failResult else okResult
    stdin := fun _ => r }

/-- The build command fails, everything else succeeds. -/
def envBuildFail : Env :=
  { files := goodFiles
    cmdRes := fun c => if c = build_cmd then failResult else okResult
    stdin := fun _ => "" }

/-! ## Claims -/

/-- C1, counterexample: with both files carrying `1.2.0` the check
succeeds, but its return value is the Python boolean `True`, not the
version string `"1.2.0"` the claim asserts. -/
theorem check_version_returns_bool_not_string :
    check_version_consistency goodFiles ≠ PyVal.str "1.2.0" ∧
    check_version_consistency goodFiles = PyVal.bool true := by decide

/-- C1 (amended): when the project manifest and the package marker both
contain the version string `1.2.0`, the version-consistency check
succeeds — both extracted versions are `"1.2.0"` — and it returns the
boolean success flag `True` (which `main` treats as success), not the
version string. -/
theorem check_version_consistency_agrees :
    pyproject_version_of goodFiles = some "1.2.0" ∧
    init_version_of goodFiles = some "1.2.0" ∧
    check_version_consistency goodFiles = PyVal.bool true ∧
    truthy (check_version_consistency goodFiles) = true := by decide

/-- C2: whenever either version source is missing (file or pattern) or
the two extracted versions differ, `main` exits with code 1 and the
build command is never invoked. -/
theorem version_failure_halts_before_build (args : Args) (env : Env)
    (h : pyproject_version_of env.files = none ∨ init_version_of env.files = none ∨
         pyproject_version_of env.files ≠ init_version_of env.files) :
    (mainRun args env).2 = 1 ∧ Event.runCmd build_cmd ∉ (mainRun args env).1 := by
  have hv : truthy (check_version_consistency env.files) = false := by
    rw [check_version_eq]
    rcases h with h | h | h <;>
      simp [truthy, h, decide_eq_false_iff_not]
  unfold mainRun
  rw [hv]
  by_cases hc : args.skip_clean = true <;> simp [hc]

/-- C2, witness: the spec's `1.2.0` vs `1.1.9` mismatch halts with exit
code 1 before the build command. -/
theorem version_failure_halts_before_build_witness :
    (mainRun argsDefault envMismatch).2 = 1 ∧
    Event.runCmd build_cmd ∉ (mainRun argsDefault envMismatch).1 :=
  version_failure_halts_before_build argsDefault envMismatch
    (Or.inr (Or.inr (by decide)))

/-- C5: the shared command runner returns `true` exactly when the exit
code is zero — with either value of `check` — and the captured stderr
text never influences the returned value. -/
theorem run_command_true_iff_exit_zero (check : Bool) (rc : Int) (out err : String) :
    (run_command check ⟨rc, out, err⟩ = true ↔ rc = 0) ∧
    run_command check ⟨rc, out, err⟩ = run_command check ⟨rc, out, ""⟩ := by
  constructor
  · unfold run_command
    split <;> simp_all
  · rfl

/-- `true` when the entry `n ↦ k` is residue the clean stage targets:
an entry named `build` or `dist`, or an `*.egg-info` directory. -/
def isBuildArtifact (n : String) (k : Option EntryKind) : Bool :=
  k.isSome && (n == "build" || n == "dist" ||
    ((k == some EntryKind.dir) && n.endsWith ".egg-info"))

/-- C8: the clean operation is a total function on directory states and
is idempotent — cleaning twice equals cleaning once, in particular the
second run (which finds nothing to remove) changes nothing and raises
nothing — and after one run no `build` entry, `dist` entry or
`*.egg-info` directory remains. -/
theorem clean_idempotent_and_complete (fs : Fs) :
    clean_build_artifacts (clean_build_artifacts fs) = clean_build_artifacts fs ∧
    (∀ n : String, isBuildArtifact n (clean_build_artifacts fs n) = false) := by
  constructor
  · funext n
    simp only [clean_apply]
    by_cases hb : n = "build"
    · simp [hb]
    · by_cases hd : n = "dist"
      · simp [hd]
      · by_cases he : fs n = some EntryKind.dir ∧ n.endsWith ".egg-info" = true
        · simp [hb, hd, he]
        · simp [hb, hd, he]
  · intro n
    rw [clean_apply]
    split
    · rfl
    · next h =>
      push_neg at h
      obtain ⟨h1, h2, h3⟩ := h
      unfold isBuildArtifact
      cases hk : fs n with
      | none => rfl
      | some k =>
        cases k with
        | file => simp [h1, h2]
        | dir =>
          have he : n.endsWith ".egg-info" = false :=
            Bool.not_eq_true _ ▸ (h3 hk)
          simp [h1, h2, he]

/-- C10: pointwise frame characterisation of the clean operation — the
entries named `build` and `dist` are removed whether file or directory,
an entry matching `*.egg-info` is removed only when it is a directory,
and every other entry is left exactly as it was; concretely, a regular
file named `ragpack.egg-info` survives the clean untouched. -/
theorem clean_frame (fs : Fs) (n : String) :
    clean_build_artifacts fs n =
      (if n = "build" ∨ n = "dist" ∨
          (fs n = some EntryKind.dir ∧ n.endsWith ".egg-info" = true)
       then none else fs n) ∧
    clean_build_artifacts
        (fun m => if m = "ragpack.egg-info" then some EntryKind.file else none)
        "ragpack.egg-info" = some EntryKind.file :=
  ⟨clean_apply fs n, by decide⟩

/-- Every event of the build/check/publish tail is the build command,
the package-check command, one of the two upload commands, or the
production confirmation prompt. -/
lemma bcp_events_cases (args : Args) (env : Env) (prompts : Nat) :
    ∀ e ∈ (build_check_publish args env prompts).1,
      e = Event.runCmd build_cmd ∨ e = Event.runCmd twine_check_cmd ∨
      e = Event.runCmd twine_upload_test_cmd ∨ e = Event.runCmd twine_upload_cmd ∨
      e = Event.prompt pypi_prompt := by
  intro e he
  unfold build_check_publish at he
  by_cases h4 : build_package env = false <;>
  by_cases h5 : check_package env = false <;>
  cases htgt : args.target <;>
  by_cases h6 : upload_to_test_pypi env = false <;>
  by_cases h7 : pyLower (env.stdin prompts) = "y" <;>
  by_cases h8 : upload_to_pypi env = false <;>
  simp [h4, h5, htgt, h6, h7, h8] at he <;>
  tauto

/-- Shape of a run that passes the version check and the checks/tests
phase: clean part, checks part, then the build/check/publish tail. -/
lemma mainRun_ok_eq (args : Args) (env : Env)
    (hver : truthy (check_version_consistency env.files) = true)
    (hchk : (checks_and_tests args env).2.2 = true) :
    mainRun args env =
      ((if args.skip_clean then [] else [Event.clean]) ++ (checks_and_tests args env).1 ++
        (build_check_publish args env (checks_and_tests args env).2.1).1,
       (build_check_publish args env (checks_and_tests args env).2.1).2) := by
  unfold mainRun
  simp [hver, hchk]

/-- Shape of a run that passes the version check but is declined during
the checks/tests phase. -/
lemma mainRun_checksfail_eq (args : Args) (env : Env)
    (hver : truthy (check_version_consistency env.files) = true)
    (hchk : (checks_and_tests args env).2.2 = false) :
    mainRun args env =
      ((if args.skip_clean then [] else [Event.clean]) ++ (checks_and_tests args env).1, 1) := by
  unfold mainRun
  simp [hver, hchk]

/-- Nothing but the clean event can sit in the clean part of a trace. -/
lemma not_mem_clean_part (e : Event) (b : Bool) (h : e ≠ Event.clean) :
    e ∉ (if b = true then ([] : List Event) else [Event.clean]) := by
  cases b <;> simp [h]

/-- An event that is none of the five checks/tests events is not in
that part of the trace. -/
lemma not_mem_checks_of_ne (args : Args) (env : Env) (e : Event)
    (h1 : e ≠ Event.runCmd black_cmd) (h2 : e ≠ Event.runCmd flake8_cmd)
    (h3 : e ≠ Event.runCmd mypy_cmd) (h4 : e ≠ Event.prompt continue_prompt)
    (h5 : e ≠ Event.runCmd pytest_cmd) :
    e ∉ (checks_and_tests args env).1 := by
  intro hm
  rcases checks_events_cases args env e hm with h | h | h | h | h <;> tauto

/-- Classification of every event a run can emit. -/
lemma mainRun_events_cases (args : Args) (env : Env) :
    ∀ e ∈ (mainRun args env).1,
      e = Event.clean ∨ e ∈ (checks_and_tests args env).1 ∨
      e = Event.runCmd build_cmd ∨ e = Event.runCmd twine_check_cmd ∨
      e = Event.runCmd twine_upload_test_cmd ∨ e = Event.runCmd twine_upload_cmd ∨
      e = Event.prompt pypi_prompt := by
  intro e he
  have hclean : ∀ x : Event,
      x ∈ (if args.skip_clean = true then ([] : List Event) else [Event.clean]) →
      x = Event.clean := by
    intro x hx
    by_cases h2 : args.skip_clean = true
    · simp [h2] at hx
    · simp [h2] at hx; exact hx
  by_cases h1 : truthy (check_version_consistency env.files) = false
  · unfold mainRun at he
    simp [h1] at he
    exact Or.inl he.2
  · have h1' : truthy (check_version_consistency env.files) = true := by
      cases h : truthy (check_version_consistency env.files) <;> simp_all
    by_cases h3 : (checks_and_tests args env).2.2 = true
    · rw [mainRun_ok_eq args env h1' h3] at he
      simp only [List.mem_append] at he
      rcases he with (he | he) | he
      · exact Or.inl (hclean e he)
      · exact Or.inr (Or.inl he)
      · have := bcp_events_cases args env _ e he
        tauto
    · have h3' : (checks_and_tests args env).2.2 = false := by
        cases h : (checks_and_tests args env).2.2 <;> simp_all
      rw [mainRun_checksfail_eq args env h1' h3'] at he
      simp only [List.mem_append] at he
      rcases he with he | he
      · exact Or.inl (hclean e he)
      · exact Or.inr (Or.inl he)

/-- When the version check passes, everything the checks/tests phase
emits is in the run's trace. -/
lemma mem_checks_mem_mainRun (args : Args) (env : Env)
    (hver : truthy (check_version_consistency env.files) = true) :
    ∀ e ∈ (checks_and_tests args env).1, e ∈ (mainRun args env).1 := by
  intro e he
  by_cases hchk : (checks_and_tests args env).2.2 = true
  · rw [mainRun_ok_eq args env hver hchk]
    simp [he]
  · have hchk' : (checks_and_tests args env).2.2 = false := by
      cases h : (checks_and_tests args env).2.2 <;> simp_all
    rw [mainRun_checksfail_eq args env hver hchk']
    simp [he]

/-- C3: when `--target pypi` is selected and the run reaches the upload
step (version check passed, checks/tests phase continued, build and
package check succeeded), the confirmation prompt gates the production
upload: an answer that does not lower to `y` makes the process exit with
code 1 and the production upload command is never issued, while the
answer `y` (after lowering) issues the production upload command, after
the prompt was shown. -/
theorem pypi_upload_gated_on_confirmation (args : Args) (env : Env)
    (htgt : args.target = Target.pypi)
    (hver : truthy (check_version_consistency env.files) = true)
    (hchk : (checks_and_tests args env).2.2 = true)
    (hbuild : build_package env = true)
    (hpkg : check_package env = true) :
    (pyLower (env.stdin (checks_and_tests args env).2.1) ≠ "y" →
       (mainRun args env).2 = 1 ∧
       Event.runCmd twine_upload_cmd ∉ (mainRun args env).1) ∧
    (pyLower (env.stdin (checks_and_tests args env).2.1) = "y" →
       Event.prompt pypi_prompt ∈ (mainRun args env).1 ∧
       Event.runCmd twine_upload_cmd ∈ (mainRun args env).1) := by
  rw [mainRun_ok_eq args env hver hchk]
  constructor
  · intro h
    have hbcp : build_check_publish args env (checks_and_tests args env).2.1 =
        ([Event.runCmd build_cmd, Event.runCmd twine_check_cmd, Event.prompt pypi_prompt], 1) := by
      unfold build_check_publish
      simp [hbuild, hpkg, htgt, h]
    rw [hbcp]
    refine ⟨rfl, ?_⟩
    simp only [List.mem_append]
    push_neg
    refine ⟨⟨not_mem_clean_part _ args.skip_clean (by decide),
      not_mem_checks_of_ne args env _ (by decide) (by decide) (by decide) (by decide)
        (by decide)⟩, ?_⟩
    decide
  · intro h
    by_cases hup : upload_to_pypi env = false
    · have hbcp : build_check_publish args env (checks_and_tests args env).2.1 =
          ([Event.runCmd build_cmd, Event.runCmd twine_check_cmd, Event.prompt pypi_prompt,
            Event.runCmd twine_upload_cmd], 1) := by
        unfold build_check_publish
        simp [hbuild, hpkg, htgt, h, hup]
      rw [hbcp]
      constructor <;> simp
    · have hbcp : build_check_publish args env (checks_and_tests args env).2.1 =
          ([Event.runCmd build_cmd, Event.runCmd twine_check_cmd, Event.prompt pypi_prompt,
            Event.runCmd twine_upload_cmd], 0) := by
        unfold build_check_publish
        simp [hbuild, hpkg, htgt, h, hup]
      rw [hbcp]
      constructor <;> simp

/-- C3, witness: with `--target pypi --skip-checks` and every external
command succeeding, answering `n` exits with code 1 and never issues the
production upload, while answering `y` shows the prompt and issues it. -/
theorem pypi_upload_gated_witness :
    ((mainRun argsPypiSkip (envAllOk "n")).2 = 1 ∧
      Event.runCmd twine_upload_cmd ∉ (mainRun argsPypiSkip (envAllOk "n")).1) ∧
    (Event.prompt pypi_prompt ∈ (mainRun argsPypiSkip (envAllOk "y")).1 ∧
      Event.runCmd twine_upload_cmd ∈ (mainRun argsPypiSkip (envAllOk "y")).1) :=
  ⟨(pypi_upload_gated_on_confirmation argsPypiSkip (envAllOk "n") rfl (by decide) (by decide)
      (by decide) (by decide)).1 (by decide),
   (pypi_upload_gated_on_confirmation argsPypiSkip (envAllOk "y") rfl (by decide) (by decide)
      (by decide) (by decide)).2 (by decide)⟩

/-- C4: when the build command fails in a run that reached the build
step, the run ends right there — the trace is exactly the clean part,
the checks part and the build command, the exit code is 1, and neither
the package-check command, nor either upload command, nor the
production-upload prompt ever appears. -/
theorem build_failure_is_fatal (args : Args) (env : Env)
    (hver : truthy (check_version_consistency env.files) = true)
    (hchk : (checks_and_tests args env).2.2 = true)
    (hbuild : build_package env = false) :
    mainRun args env =
      ((if args.skip_clean then [] else [Event.clean]) ++ (checks_and_tests args env).1 ++
        [Event.runCmd build_cmd], 1) ∧
    Event.runCmd twine_check_cmd ∉ (mainRun args env).1 ∧
    Event.runCmd twine_upload_test_cmd ∉ (mainRun args env).1 ∧
    Event.runCmd twine_upload_cmd ∉ (mainRun args env).1 ∧
    Event.prompt pypi_prompt ∉ (mainRun args env).1 := by
  have heq : mainRun args env =
      ((if args.skip_clean then [] else [Event.clean]) ++ (checks_and_tests args env).1 ++
        [Event.runCmd build_cmd], 1) := by
    rw [mainRun_ok_eq args env hver hchk]
    unfold build_check_publish
    simp [hbuild]
  have hmem : ∀ e : Event, e ≠ Event.clean → e ≠ Event.runCmd black_cmd →
      e ≠ Event.runCmd flake8_cmd → e ≠ Event.runCmd mypy_cmd →
      e ≠ Event.prompt continue_prompt → e ≠ Event.runCmd pytest_cmd →
      e ≠ Event.runCmd build_cmd → e ∉ (mainRun args env).1 := by
    intro e h0 h1 h2 h3 h4 h5 h6
    rw [heq]
    simp only [List.mem_append, List.mem_singleton]
    push_neg
    exact ⟨⟨not_mem_clean_part e args.skip_clean h0,
      not_mem_checks_of_ne args env e h1 h2 h3 h4 h5⟩, h6⟩
  exact ⟨heq,
    hmem _ (by decide) (by decide) (by decide) (by decide) (by decide) (by decide) (by decide),
    hmem _ (by decide) (by decide) (by decide) (by decide) (by decide) (by decide) (by decide),
    hmem _ (by decide) (by decide) (by decide) (by decide) (by decide) (by decide) (by decide),
    hmem _ (by decide) (by decide) (by decide) (by decide) (by decide) (by decide) (by decide)⟩

/-- C4, witness: a concrete run (`--target build --skip-checks`) whose
build command fails stops with exit code 1 right after the build
command. -/
theorem build_failure_is_fatal_witness :
    mainRun argsSkip envBuildFail =
      ((if argsSkip.skip_clean then [] else [Event.clean]) ++
        (checks_and_tests argsSkip envBuildFail).1 ++ [Event.runCmd build_cmd], 1) ∧
    Event.runCmd twine_check_cmd ∉ (mainRun argsSkip envBuildFail).1 ∧
    Event.runCmd twine_upload_test_cmd ∉ (mainRun argsSkip envBuildFail).1 ∧
    Event.runCmd twine_upload_cmd ∉ (mainRun argsSkip envBuildFail).1 ∧
    Event.prompt pypi_prompt ∉ (mainRun argsSkip envBuildFail).1 :=
  build_failure_is_fatal argsSkip envBuildFail (by decide) (by decide) (by decide)

/-- C6: with `--skip-checks` set — whatever the target, the skip-clean
flag, the file contents, the command outcomes and the operator input —
no run ever invokes the formatting check, the linting check, the type
check or the test suite, and the continue-anyway prompt never occurs. -/
theorem skip_checks_skips_quality_and_tests (target : Target) (skipClean : Bool) (env : Env) :
    Event.runCmd black_cmd ∉ (mainRun ⟨target, true, skipClean⟩ env).1 ∧
    Event.runCmd flake8_cmd ∉ (mainRun ⟨target, true, skipClean⟩ env).1 ∧
    Event.runCmd mypy_cmd ∉ (mainRun ⟨target, true, skipClean⟩ env).1 ∧
    Event.runCmd pytest_cmd ∉ (mainRun ⟨target, true, skipClean⟩ env).1 ∧
    Event.prompt continue_prompt ∉ (mainRun ⟨target, true, skipClean⟩ env).1 := by
  have hc : checks_and_tests ⟨target, true, skipClean⟩ env = ([], 0, true) := rfl
  have key : ∀ e : Event, e ≠ Event.clean → e ≠ Event.runCmd build_cmd →
      e ≠ Event.runCmd twine_check_cmd → e ≠ Event.runCmd twine_upload_test_cmd →
      e ≠ Event.runCmd twine_upload_cmd → e ≠ Event.prompt pypi_prompt →
      e ∉ (mainRun ⟨target, true, skipClean⟩ env).1 := by
    intro e h0 h1 h2 h3 h4 h5 hm
    rcases mainRun_events_cases _ env _ hm with h | h | h | h | h | h | h
    · exact h0 h
    · rw [hc] at h; simp at h
    · exact h1 h
    · exact h2 h
    · exact h3 h
    · exact h4 h
    · exact h5 h
  exact ⟨key _ (by decide) (by decide) (by decide) (by decide) (by decide) (by decide),
    key _ (by decide) (by decide) (by decide) (by decide) (by decide) (by decide),
    key _ (by decide) (by decide) (by decide) (by decide) (by decide) (by decide),
    key _ (by decide) (by decide) (by decide) (by decide) (by decide) (by decide),
    key _ (by decide) (by decide) (by decide) (by decide) (by decide) (by decide)⟩

/-- The aggregate `run_quality_checks` result is the conjunction of the
three commands' exit codes being zero. -/
lemma run_quality_checks_iff (env : Env) :
    run_quality_checks env = true ↔
      ((env.cmdRes black_cmd).returncode = 0 ∧ (env.cmdRes flake8_cmd).returncode = 0 ∧
        (env.cmdRes mypy_cmd).returncode = 0) := by
  unfold run_quality_checks quality_check_cmds run_command
  simp [List.foldl, Bool.and_eq_true]
  tauto

/-- With checks not skipped, the checks/tests phase always emits the
three quality-check commands, and emits the continue prompt whenever the
aggregate quality result is a failure. -/
lemma qc_events_mem_checks (args : Args) (env : Env) (hsk : args.skip_checks = false) :
    Event.runCmd black_cmd ∈ (checks_and_tests args env).1 ∧
    Event.runCmd flake8_cmd ∈ (checks_and_tests args env).1 ∧
    Event.runCmd mypy_cmd ∈ (checks_and_tests args env).1 ∧
    (run_quality_checks env = false →
      Event.prompt continue_prompt ∈ (checks_and_tests args env).1) := by
  unfold checks_and_tests
  by_cases hq : run_quality_checks env = true
  · simp [hsk, hq, quality_check_cmds]
  · have hq' : run_quality_checks env = false := by
      cases h : run_quality_checks env <;> simp_all
    by_cases hy : pyLower (env.stdin 0) = "y" <;>
      simp [hsk, hq', hy, quality_check_cmds]

/-- C7: in any run with checks enabled that passes the version check,
all three quality-check commands are invoked — whatever their outcomes,
so a failure of one does not stop the others — the stage's aggregate
result is `true` exactly when all three exit codes are zero, and an
aggregate failure leads to the continue-anyway prompt rather than an
outright halt. -/
theorem quality_checks_aggregate_and_prompt (args : Args) (env : Env)
    (hsk : args.skip_checks = false)
    (hver : truthy (check_version_consistency env.files) = true) :
    (run_quality_checks env = true ↔
      ((env.cmdRes black_cmd).returncode = 0 ∧ (env.cmdRes flake8_cmd).returncode = 0 ∧
        (env.cmdRes mypy_cmd).returncode = 0)) ∧
    Event.runCmd black_cmd ∈ (mainRun args env).1 ∧
    Event.runCmd flake8_cmd ∈ (mainRun args env).1 ∧
    Event.runCmd mypy_cmd ∈ (mainRun args env).1 ∧
    (run_quality_checks env = false →
      Event.prompt continue_prompt ∈ (mainRun args env).1) := by
  obtain ⟨hb, hf, hm, hp⟩ := qc_events_mem_checks args env hsk
  exact ⟨run_quality_checks_iff env,
    mem_checks_mem_mainRun args env hver _ hb,
    mem_checks_mem_mainRun args env hver _ hf,
    mem_checks_mem_mainRun args env hver _ hm,
    fun h => mem_checks_mem_mainRun args env hver _ (hp h)⟩

/-- C7, witness: in a concrete run whose formatting check fails, all
three quality-check commands are still invoked, the aggregate is the
conjunction, and the continue-anyway prompt occurs. -/
theorem quality_checks_aggregate_witness :
    (run_quality_checks (envQualityFail "n") = true ↔
      (((envQualityFail "n").cmdRes black_cmd).returncode = 0 ∧
        ((envQualityFail "n").cmdRes flake8_cmd).returncode = 0 ∧
        ((envQualityFail "n").cmdRes mypy_cmd).returncode = 0)) ∧
    Event.runCmd black_cmd ∈ (mainRun argsDefault (envQualityFail "n")).1 ∧
    Event.runCmd flake8_cmd ∈ (mainRun argsDefault (envQualityFail "n")).1 ∧
    Event.runCmd mypy_cmd ∈ (mainRun argsDefault (envQualityFail "n")).1 ∧
    (run_quality_checks (envQualityFail "n") = false →
      Event.prompt continue_prompt ∈ (mainRun argsDefault (envQualityFail "n")).1) :=
  quality_checks_aggregate_and_prompt argsDefault (envQualityFail "n") (by decide) (by decide)

/-- C9: at each of the three interactive prompts — quality-check
failure, test failure, and production-upload confirmation — the run
continues exactly when the operator's input lowers to the single letter
`y`; any other input (including `yes`, `Y es` or the empty string, all
instances of the quantified response `r`) ends the process with exit
code 1.  Each conjunct exercises one prompt: a run whose formatting
check fails, a run whose test suite fails, and an all-green
`--target pypi` run. -/
theorem prompt_continue_iff_lower_y (r : String) :
    (mainRun argsDefault (envQualityFail r)).2 = (if pyLower r = "y" then 0 else 1) ∧
    (mainRun argsDefault (envTestFail r)).2 = (if pyLower r = "y" then 0 else 1) ∧
    (mainRun argsPypiFull (envAllOk r)).2 = (if pyLower r = "y" then 0 else 1) := by
  have hg : truthy (check_version_consistency goodFiles) = true := by decide
  have hfl1 : truthy (check_version_consistency (envQualityFail r).files) = true := hg
  have hfl2 : truthy (check_version_consistency (envTestFail r).files) = true := hg
  have hfl3 : truthy (check_version_consistency (envAllOk r).files) = true := hg
  have hq1 : run_quality_checks (envQualityFail r) = false := rfl
  have ht1 : run_tests (envQualityFail r) = true := rfl
  have hq2 : run_quality_checks (envTestFail r) = true := rfl
  have ht2 : run_tests (envTestFail r) = false := rfl
  have hs1 : ∀ n, (envQualityFail r).stdin n = r := fun _ => rfl
  have hs2 : ∀ n, (envTestFail r).stdin n = r := fun _ => rfl
  have hs3 : ∀ n, (envAllOk r).stdin n = r := fun _ => rfl
  have hbcp1 : ∀ p, build_check_publish argsDefault (envQualityFail r) p =
      ([Event.runCmd build_cmd, Event.runCmd twine_check_cmd], 0) := fun _ => rfl
  have hbcp2 : ∀ p, build_check_publish argsDefault (envTestFail r) p =
      ([Event.runCmd build_cmd, Event.runCmd twine_check_cmd], 0) := fun _ => rfl
  have hc3 : checks_and_tests argsPypiFull (envAllOk r) =
      ([Event.runCmd black_cmd, Event.runCmd flake8_cmd, Event.runCmd mypy_cmd,
        Event.runCmd pytest_cmd], 0, true) := rfl
  have hbp3 : build_package (envAllOk r) = true := rfl
  have hcp3 : check_package (envAllOk r) = true := rfl
  have hup3 : upload_to_pypi (envAllOk r) = true := rfl
  by_cases h : pyLower r = "y"
  · have hc1 : (checks_and_tests argsDefault (envQualityFail r)).2.2 = true := by
      unfold checks_and_tests tests_block
      simp [argsDefault, hq1, ht1, hs1, h]
    have hc2 : (checks_and_tests argsDefault (envTestFail r)).2.2 = true := by
      unfold checks_and_tests tests_block
      simp [argsDefault, hq2, ht2, hs2, h]
    refine ⟨?_, ?_, ?_⟩
    · rw [mainRun_ok_eq argsDefault (envQualityFail r) hfl1 hc1]
      simp [hbcp1, h]
    · rw [mainRun_ok_eq argsDefault (envTestFail r) hfl2 hc2]
      simp [hbcp2, h]
    · rw [mainRun_ok_eq argsPypiFull (envAllOk r) hfl3 (by rw [hc3])]
      rw [hc3]
      unfold build_check_publish
      simp [argsPypiFull, hbp3, hcp3, hup3, hs3, h]
  · have hc1 : (checks_and_tests argsDefault (envQualityFail r)).2.2 = false := by
      unfold checks_and_tests
      simp [argsDefault, hq1, hs1, h]
    have hc2 : (checks_and_tests argsDefault (envTestFail r)).2.2 = false := by
      unfold checks_and_tests tests_block
      simp [argsDefault, hq2, ht2, hs2, h]
    refine ⟨?_, ?_, ?_⟩
    · rw [mainRun_checksfail_eq argsDefault (envQualityFail r) hfl1 hc1]
      simp [h]
    · rw [mainRun_checksfail_eq argsDefault (envTestFail r) hfl2 hc2]
      simp [h]
    · rw [mainRun_ok_eq argsPypiFull (envAllOk r) hfl3 (by rw [hc3])]
      rw [hc3]
      unfold build_check_publish
      simp [argsPypiFull, hbp3, hcp3, hup3, hs3, h]
